import Mathlib

/-!
Verification development for the Telegram video-downloader bot
(`YT_TT_FB.py`).  The Python source is shallowly embedded: the pure URL
validator becomes a Lean boolean function, the per-user session dictionary
becomes an association list of dynamically typed values, and the message /
callback handlers become pure state-transition functions parameterised over
an environment record describing the behaviour of the external extraction
engine and the chat gateway.  Exceptions that escape a handler are modelled
as an `Option String` field naming the Python exception class.
-/

namespace TeleBot

/-! ## Dynamically typed dictionary values (Python dict entries) -/

/-- Values stored in a user-session dictionary.  The source only ever stores
strings (`platform`, `quality`) and booleans (`video_sent`). -/
inductive Val where
  | str (s : String)
  | bool (b : Bool)
deriving DecidableEq, Repr

/-- Python truthiness for the values that can occur in a session dict
(used by `if user_state[user_id].get("video_sent"):`). -/
def truthy : Val → Bool
  | Val.str s => s != ""
  | Val.bool b => b

/-- A Python dict with string keys, as an association list (first binding of
a key wins, mirroring dict-uniqueness of keys). -/
abbrev Sess := List (String × Val)

/-- The global `user_state : Dict[int, Dict]` mapping user ids to sessions. -/
abbrev Store := List (Nat × Sess)

/-- Dictionary lookup: `d.get(k)` / `d[k]`. -/
def dget : Sess → String → Option Val
  | [], _ => none
  | (k, v) :: rest, key => if k = key then some v else dget rest key

/-- Dictionary update: `d[k] = v` (replaces the binding, or appends). -/
def dset : Sess → String → Val → Sess
  | [], k, v => [(k, v)]
  | (k0, v0) :: rest, k, v =>
    if k0 = k then (k, v) :: rest else (k0, v0) :: dset rest k v

/-- Store lookup: `user_state.get(uid)` / `uid in user_state`. -/
def sget : Store → Nat → Option Sess
  | [], _ => none
  | (k, v) :: rest, key => if k = key then some v else sget rest key

/-- Store update: `user_state[uid] = sess`. -/
def sset : Store → Nat → Sess → Store
  | [], k, v => [(k, v)]
  | (k0, v0) :: rest, k, v =>
    if k0 = k then (k, v) :: rest else (k0, v0) :: sset rest k v

/-! ## Python string helpers used by the handlers -/

/-- Whitespace recognised by Python `str.strip()`. -/
def pySpace (c : Char) : Bool :=
  c == ' ' || c == '\t' || c == '\n' || c == '\r' || c == '\x0b' || c == '\x0c'

/-- `str.strip()` on the underlying character list. -/
def stripL (s : List Char) : List Char :=
  ((s.dropWhile pySpace).reverse.dropWhile pySpace).reverse

/-- Python `text.strip()`. -/
def pyStrip (s : String) : String := String.mk (stripL s.data)

/-- Does the character list `s` begin with `p`?  Models `str.startswith`. -/
def beginsWith : List Char → List Char → Bool
  | _, [] => true
  | [], _ :: _ => false
  | a :: s, b :: p => a == b && beginsWith s p

/-- Python `s.split(sep)` for a one-character separator, on character
lists: splits at every occurrence, keeping empty chunks. -/
def splitOnCh (sep : Char) : List Char → List (List Char)
  | [] => [[]]
  | a :: rest =>
    let r := splitOnCh sep rest
    if a == sep then [] :: r
    else
      match r with
      | h :: t => (a :: h) :: t
      | [] => [[a]]

/-- Python `data.split(":")` returning strings. -/
def pySplitColon (s : String) : List String :=
  (splitOnCh ':' s.data).map String.mk

/-! ## URL validator (`is_valid_url`, source lines 40-46)

Each pattern in the source has the shape
`(https?://)?(SUB1|...|SUBn)?(DOM1|...|DOMm)/.+` and is used with
`re.match`, i.e. it must match a *prefix* of the URL.  Such a pattern
matches iff the URL starts with one of the finitely many concatenations
`scheme ++ sub ++ dom ++ "/"` followed by at least one character, where the
first such character is not a newline (`.` does not match a newline). -/

/-- `startsThen p u` holds iff `u` starts with `p` followed by at least one
further character that is not a newline.  This is the prefix-matching
semantics of a regex `P/.+` leaf under `re.match` once `P` is a fixed
string. -/
def startsThen : List Char → List Char → Bool
  | [], [] => false
  | [], c :: _ => c != '\n'
  | _ :: _, [] => false
  | a :: p, b :: u => a == b && startsThen p u

/-- The three ways the optional group `(https?://)?` can match. -/
def schemeOpts : List (List Char) := [[], "http://".data, "https://".data]

/-- Matching of a source pattern `(https?://)?(subs)?(doms)/.+` under
`re.match`: some choice of scheme, optional subdomain and domain yields a
prefix of the URL followed by a non-empty path start. -/
def rxMatch (subs doms : List (List Char)) (u : List Char) : Bool :=
  schemeOpts.any fun sch =>
    ([] :: subs).any fun sub =>
      doms.any fun d => startsThen (sch ++ sub ++ d ++ ['/']) u

/-- The `patterns` dict of `is_valid_url`, with each regex split into its
optional-subdomain alternatives and its domain alternatives:
`"YouTube"`: `(https?://)?(www\.)?(youtube\.com|youtu\.be)/.+`,
`"TikTok"`: `(https?://)?(www\.|vm\.|vt\.)?tiktok\.com/.+`,
`"Facebook"`: `(https?://)?(www\.|m\.)?facebook\.com/.+`.
`none` models the `KeyError` raised by `patterns[platform]` for any other
platform string. -/
def patterns : String → Option (List (List Char) × List (List Char))
  | "YouTube" => some ([ "www.".data ], [ "youtube.com".data, "youtu.be".data ])
  | "TikTok" => some ([ "www.".data, "vm.".data, "vt.".data ], [ "tiktok.com".data ])
  | "Facebook" => some ([ "www.".data, "m.".data ], [ "facebook.com".data ])
  | _ => none

/-- `is_valid_url(platform, url)` (source lines 40-46).  `some b` is the
boolean result; `none` models the `KeyError` escaping from
`patterns[platform]` when `platform` is not a key of the dict. -/
def is_valid_url (platform url : String) : Option Bool :=
  match patterns platform with
  | some (subs, doms) => some (rxMatch subs doms url.data)
  | none => none

/-! ## Specification-side validator (for claim C1)

Modelled from the spec's words: a URL is valid for a platform exactly when
it consists of an optional scheme, then one of the platform's accepted
hosts — the canonical domain, its `www.` subdomain variant, and the
documented short-link / mobile domains — followed by `/` and a path. -/

/-- The full host list the spec describes per platform: canonical domain,
optional `www.` subdomain, and the documented short-link / mobile domains
(`youtu.be` for YouTube, `vm.`/`vt.tiktok.com` for TikTok,
`m.facebook.com` for Facebook). -/
def specHosts : String → List (List Char)
  | "YouTube" =>
    [ "youtube.com".data, "youtu.be".data,
      "www.youtube.com".data, "www.youtu.be".data ]
  | "TikTok" =>
    [ "tiktok.com".data, "www.tiktok.com".data,
      "vm.tiktok.com".data, "vt.tiktok.com".data ]
  | "Facebook" =>
    [ "facebook.com".data, "www.facebook.com".data, "m.facebook.com".data ]
  | _ => []

/-- Spec-side validity: the URL is an optional scheme, then one of the
platform's accepted hosts, then `/` and a non-empty path. -/
def spec_is_valid (platform url : String) : Bool :=
  schemeOpts.any fun sch =>
    (specHosts platform).any fun host => startsThen (sch ++ host ++ ['/']) url.data

/-! ## Constants of the bot -/

/-- The `PLATFORMS` list (source line 36). -/
def PLATFORMS : List String := ["YouTube", "TikTok", "Facebook"]

/-- The `QUALITIES` list (source line 37). -/
def QUALITIES : List String := ["360p", "720p", "1080p", "2k"]

/-- The 2 GiB size ceiling `2 * 1024 * 1024 * 1024` (source line 142). -/
def GIB2 : Nat := 2 * 1024 * 1024 * 1024

/-! ## User-visible reply texts (verbatim from the source) -/

/-- Reply when no session exists (source line 100). -/
def restart_msg : String := "⚠ Please start with /start to choose a platform."

/-- Reply when `video_sent` is already truthy (source line 104). -/
def already_msg : String :=
  "✅ You\x27ve already downloaded a video. Start again with /start."

/-- Reply for a URL rejected by the validator (source line 111). -/
def invalid_msg (platform : String) : String :=
  "❌ Invalid URL for " ++ platform ++ ". Try again."

/-- Progress reply sent before the download starts (source line 114). -/
def wait_msg : String := "⏳ Downloading video, please wait..."

/-- Reply when the expected output file is missing (source line 139). -/
def notfound_msg : String := "❌ Download failed: file not found."

/-- Reply for the oversize rejection (source line 143). -/
def toolarge_msg : String := "⚠ File too large (limit: 2GB). Try lower quality."

/-- Reply after a successful send (source line 156). -/
def success_msg : String := "✅ Video sent successfully!"

/-- Reply built in the `except` block, containing the raw error text
(source line 160). -/
def error_msg (e : String) : String :=
  "Please wait a moment, the video is being downloaded. If it takes too long, please try again later.\n\nError: " ++ e

/-- Reply when quality is picked without a live session (source line 92). -/
def expired_msg : String := "⚠ Session expired. Please restart with /start."

/-- Reply after a platform was selected (source lines 77-81, markup text). -/
def platform_msg (platform : String) : String :=
  "📥 Platform selected: *" ++ platform ++ "*\nNow choose video quality:"

/-- Reply after a quality was selected (source lines 87-90, markup text). -/
def quality_msg (quality : String) : String :=
  "🎞 Quality selected: *" ++ quality ++ "*\nNow send the video URL:"

/-! ## Download options (`ydl_opts`, source lines 120-132) -/

/-- `format_height = quality.replace("p", "")`: every occurrence of the
letter `p` is removed from the quality label. -/
def format_height (quality : String) : String :=
  String.mk (quality.data.filter fun c => c != 'p')

/-- The requested format selector `f'best[height<=\x7bformat_height\x7d]/best'`. -/
def ydl_format (quality : String) : String :=
  "best[height<=" ++ format_height quality ++ "]/best"

/-- The configuration bundle passed to `yt_dlp.YoutubeDL` (source lines
122-132). -/
structure YdlOpts where
  format : String
  outtmpl : String
  noplaylist : Bool
  quiet : Bool
  socket_timeout : Nat
  retries : Nat
  fragment_retries : Nat
  continuedl : Bool
  noprogress : Bool
deriving DecidableEq, Repr

/-- Builds `ydl_opts` from the quality label and the random file token. -/
def mk_ydl_opts (quality file_token : String) : YdlOpts :=
  { format := ydl_format quality
  , outtmpl := "downloads/" ++ file_token ++ ".%(ext)s"
  , noplaylist := true
  , quiet := true
  , socket_timeout := 120
  , retries := 10
  , fragment_retries := 10
  , continuedl := true
  , noprogress := true }

/-! ## Environment of one `handle_url` run

The extraction engine and the chat gateway are external; one run of the
download step is parameterised by what they do. -/

/-- What `ydl.extract_info(message, download=True)` does.
`raise err leftover`: the engine raises an exception whose text is `err`,
having already created the files `leftover` inside the working directory
(e.g. a partially written `.part` file).
`finish ext title exists_after size send_err`: the engine returns info with
optional `title` and realized extension `ext`; `exists_after` says whether
the expected output file is on storage afterwards, `size` is its byte size,
and `send_err` is the error text of the exception raised by
`reply_video` (`none` when the send succeeds). -/
inductive EngineOutcome where
  | raise (err : String) (leftover : List String)
  | finish (ext : String) (title : Option String) (exists_after : Bool)
      (size : Nat) (send_err : Option String)
deriving DecidableEq, Repr

/-- Per-request environment: the random token `uuid4().hex[:10]` and the
engine's behaviour. -/
structure DownloadEnv where
  file_token : String
  outcome : EngineOutcome
deriving DecidableEq, Repr

/-- Observable result of one `handle_url` run: the session store, the set
of files on storage, the text replies sent (in order), whether
`extract_info` was invoked and with which options, the file/caption passed
to `reply_video` (if an attempt was made), and the Python exception class
escaping the handler, if any. -/
structure HandleResult where
  store : Store
  fs : List String
  replies : List String
  engine_called : Bool
  opts_used : Option YdlOpts
  sent_video : Option (String × String)
  raised : Option String
deriving DecidableEq, Repr

/-- `os.remove`: the file disappears from storage. -/
def fsRemove (fs : List String) (p : String) : List String :=
  fs.filter fun q => q != p

/-- The quality used for the download: `.get("quality", "720p")` (source
line 108), as the string later passed to `.replace`.  `none` marks the
unreachable case of a non-string stored under `"quality"`, where
`quality.replace` would raise `AttributeError`. -/
def sessQuality (sess : Sess) : Option String :=
  match dget sess "quality" with
  | none => some "720p"
  | some (Val.str q) => some q
  | some (Val.bool _) => none

/-! ## `handle_url` (source lines 95-164) -/

/-- One run of `handle_url`.  Mirrors the source line by line:
the message text is stripped (line 97); guard (a): no session → restart
reply (lines 99-101); guard (b): truthy `video_sent` → duplicate reply
(lines 103-105); `platform`/`quality` are read from the session (lines
107-108); guard (c): `is_valid_url` (lines 110-112) — a missing or
unrecognised platform makes `patterns[platform]` raise `KeyError`, which
propagates (line 110 is outside the `try`).  The `try` block (lines
116-164): when `extract_info` raises, the `except` block logs, replies with
the raw error text, then dereferences the never-bound local `file_path`
and a `NameError` escapes — so neither the leftover-file cleanup nor the
explicit `video_sent = False` reset (line 163) is reached; when the engine
finishes, the output file is checked for existence (line 138) and the 2 GiB
ceiling (line 142), then sent via `reply_video`; a send failure takes the
`except` path with `file_path` bound, so there cleanup and the reset do
run. -/
def handle_url (uid : Nat) (text : String) (st : Store) (fs : List String)
    (env : DownloadEnv) : HandleResult :=
  let message := pyStrip text
  match sget st uid with
  | none =>
    { store := st, fs := fs, replies := [restart_msg], engine_called := false
    , opts_used := none, sent_video := none, raised := none }
  | some sess =>
    if truthy ((dget sess "video_sent").getD (Val.bool false)) then
      { store := st, fs := fs, replies := [already_msg], engine_called := false
      , opts_used := none, sent_video := none, raised := none }
    else
      match dget sess "platform" with
      | some (Val.str platform) =>
        match is_valid_url platform message with
        | none =>
          { store := st, fs := fs, replies := [], engine_called := false
          , opts_used := none, sent_video := none, raised := some "KeyError" }
        | some false =>
          { store := st, fs := fs, replies := [invalid_msg platform]
          , engine_called := false, opts_used := none, sent_video := none
          , raised := none }
        | some true =>
          match sessQuality sess with
          | none =>
            { store := st, fs := fs
            , replies := [wait_msg, error_msg "AttributeError"]
            , engine_called := false, opts_used := none, sent_video := none
            , raised := some "NameError" }
          | some quality =>
            let opts := mk_ydl_opts quality env.file_token
            match env.outcome with
            | EngineOutcome.raise err leftover =>
              { store := st, fs := fs ++ leftover
              , replies := [wait_msg, error_msg err], engine_called := true
              , opts_used := some opts, sent_video := none
              , raised := some "NameError" }
            | EngineOutcome.finish ext title exists_after size send_err =>
              let file_path := "downloads/" ++ env.file_token ++ "." ++ ext
              if exists_after then
                let fs1 := fs ++ [file_path]
                if size > GIB2 then
                  { store := st, fs := fsRemove fs1 file_path
                  , replies := [wait_msg, toolarge_msg], engine_called := true
                  , opts_used := some opts, sent_video := none, raised := none }
                else
                  let caption := title.getD "Downloaded video"
                  match send_err with
                  | some e =>
                    { store := sset st uid (dset sess "video_sent" (Val.bool false))
                    , fs := fsRemove fs1 file_path
                    , replies := [wait_msg, error_msg e], engine_called := true
                    , opts_used := some opts
                    , sent_video := some (file_path, caption), raised := none }
                  | none =>
                    { store := sset st uid (dset sess "video_sent" (Val.bool true))
                    , fs := fsRemove fs1 file_path
                    , replies := [wait_msg, success_msg], engine_called := true
                    , opts_used := some opts
                    , sent_video := some (file_path, caption), raised := none }
              else
                { store := st, fs := fs, replies := [wait_msg, notfound_msg]
                , engine_called := true, opts_used := some opts
                , sent_video := none, raised := none }
      | _ =>
        { store := st, fs := fs, replies := [], engine_called := false
        , opts_used := none, sent_video := none, raised := some "KeyError" }

/-! ## `button_handler` (source lines 67-92) -/

/-- Result of a callback-query handler run. -/
structure CallbackResult where
  store : Store
  replies : List String
  raised : Option String
deriving DecidableEq, Repr

/-- `button_handler`: `platform:` data creates/overwrites the session with
`\x7b"platform": platform, "video_sent": False\x7d` (source line 75);
`quality:` data stores the quality if a session exists, else replies that
the session expired (lines 83-92).  `data.split(":")[1]` raising
`IndexError` is impossible after the `startswith` check but modelled
faithfully. -/
def button_handler (uid : Nat) (data : String) (st : Store) : CallbackResult :=
  if beginsWith data.data "platform:".data then
    match (pySplitColon data)[1]? with
    | some platform =>
      { store := sset st uid [("platform", Val.str platform), ("video_sent", Val.bool false)]
      , replies := [platform_msg platform], raised := none }
    | none => { store := st, replies := [], raised := some "IndexError" }
  else if beginsWith data.data "quality:".data then
    match (pySplitColon data)[1]? with
    | some quality =>
      match sget st uid with
      | some sess =>
        { store := sset st uid (dset sess "quality" (Val.str quality))
        , replies := [quality_msg quality], raised := none }
      | none => { store := st, replies := [expired_msg], raised := none }
    | none => { store := st, replies := [], raised := some "IndexError" }
  else
    { store := st, replies := [], raised := none }

/-! ## System steps and reachability -/

/-- An update delivered by the chat gateway that can touch the session
store: a callback-button press (handled by `button_handler`; `menu:`
data goes to `menu_handler`, which does not touch the store and is covered
by the final branch of `button_handler` returning the store unchanged) or
a text message (handled by `handle_url`).  `/start` does not touch the
store. -/
inductive Event where
  | callback (uid : Nat) (data : String)
  | message (uid : Nat) (text : String) (env : DownloadEnv)

/-- One dispatch step of the application over (session store, filesystem). -/
def stepSys : Store × List String → Event → Store × List String
  | (st, fs), Event.callback uid data => ((button_handler uid data st).store, fs)
  | (st, fs), Event.message uid text env =>
    let r := handle_url uid text st fs env
    (r.store, r.fs)

/-- States reachable from process start (empty store, no artifacts). -/
inductive Reachable : Store × List String → Prop where
  | init : Reachable ([], [])
  | step {s : Store × List String} (e : Event) :
      Reachable s → Reachable (stepSys s e)

/-- A well-formed session: it holds a string `platform` and a boolean
`video_sent`. -/
def WFsession (d : Sess) : Prop :=
  (∃ s, dget d "platform" = some (Val.str s)) ∧
  (∃ b, dget d "video_sent" = some (Val.bool b))

/-- Every session in the store is well-formed. -/
def WFstore (st : Store) : Prop :=
  ∀ uid d, sget st uid = some d → WFsession d

/-! ## General lemmas about the dictionary operations -/

theorem dget_dset_self (d : Sess) (k : String) (v : Val) :
    dget (dset d k v) k = some v := by
  induction d with
  | nil => simp [dget, dset]
  | cons hd tl ih =>
    obtain ⟨k0, v0⟩ := hd
    by_cases h : k0 = k <;> simp [dget, dset, h, ih]

theorem dget_dset_ne (d : Sess) {k k' : String} (v : Val) (h : k' ≠ k) :
    dget (dset d k v) k' = dget d k' := by
  induction d with
  | nil => simp [dget, dset, Ne.symm h]
  | cons hd tl ih =>
    obtain ⟨k0, v0⟩ := hd
    by_cases h0 : k0 = k
    · subst h0
      simp [dget, dset, Ne.symm h]
    · by_cases h1 : k0 = k'
      · subst h1
        simp [dget, dset, h0, ih]
      · simp [dget, dset, h0, h1, ih]

theorem sget_sset_self (st : Store) (uid : Nat) (d : Sess) :
    sget (sset st uid d) uid = some d := by
  induction st with
  | nil => simp [sget, sset]
  | cons hd tl ih =>
    obtain ⟨k0, v0⟩ := hd
    by_cases h : k0 = uid <;> simp [sget, sset, h, ih]

theorem sget_sset_ne (st : Store) {uid uid' : Nat} (d : Sess) (h : uid' ≠ uid) :
    sget (sset st uid d) uid' = sget st uid' := by
  induction st with
  | nil => simp [sget, sset, Ne.symm h]
  | cons hd tl ih =>
    obtain ⟨k0, v0⟩ := hd
    by_cases h0 : k0 = uid
    · subst h0
      simp [sget, sset, Ne.symm h]
    · by_cases h1 : k0 = uid'
      · subst h1
        simp [sget, sset, h0, ih]
      · simp [sget, sset, h0, h1, ih]

/-- Semantics of the regex leaf: `startsThen p u` holds exactly when `u`
starts with `p` followed by a character other than a newline (what
`re.match` requires of `P/.+` after the fixed prefix `P/`). -/
theorem startsThen_iff (p u : List Char) :
    startsThen p u = true ↔ ∃ c r, u = p ++ c :: r ∧ c ≠ '\n' := by
  induction p generalizing u with
  | nil =>
    cases u with
    | nil => simp [startsThen]
    | cons c r =>
      simp only [startsThen, ne_eq, bne_iff_ne, List.nil_append]
      constructor
      · intro h
        exact ⟨c, r, rfl, h⟩
      · rintro ⟨c', r', h, hc⟩
        cases h
        exact hc
  | cons a p ih =>
    cases u with
    | nil => simp [startsThen]
    | cons b r =>
      simp only [startsThen, Bool.and_eq_true, beq_iff_eq, ih, List.cons_append,
        List.cons.injEq]
      constructor
      · rintro ⟨rfl, c, r', rfl, hc⟩
        exact ⟨c, r', ⟨rfl, rfl⟩, hc⟩
      · rintro ⟨c, r', ⟨rfl, rfl⟩, hc⟩
        exact ⟨rfl, c, r', rfl, hc⟩

/-! ## Claim C1 -/

/-- C1: for every platform in \x7bYouTube, TikTok, Facebook\x7d and every
URL string, `is_valid_url` returns true exactly when the URL consists of an
optional scheme, one of the platform's accepted hosts — the canonical
domain, its `www.` subdomain variant, or the documented short-link / mobile
domains — followed by `/` and a path; URLs of any other domain get false.
Stated as: the source validator coincides with the spec-side validator
`spec_is_valid` built from the host lists. -/
theorem claim_C1 (p u : String) (hp : p ∈ PLATFORMS) :
    is_valid_url p u = some (spec_is_valid p u) := by
  have hp' : p = "YouTube" ∨ p = "TikTok" ∨ p = "Facebook" := by
    simpa [PLATFORMS] using hp
  rcases hp' with rfl | rfl | rfl <;>
  · simp only [is_valid_url, patterns, spec_is_valid, specHosts, rxMatch, schemeOpts,
      List.any_cons, List.any_nil, Bool.or_false, Bool.or_assoc]
    rfl

/-- Witness for C1 at a concrete platform and URL. -/
theorem claim_C1_witness :
    "YouTube" ∈ PLATFORMS ∧
      is_valid_url "YouTube" "https://youtu.be/dQw4w9WgXcQ" =
        some (spec_is_valid "YouTube" "https://youtu.be/dQw4w9WgXcQ") :=
  ⟨by decide, claim_C1 "YouTube" "https://youtu.be/dQw4w9WgXcQ" (by decide)⟩

/-! ## Claim C2 -/

/-- C2 counterexample: the claim says a numeric height ceiling is derived
from every quality label by stripping the trailing unit, which for `"2k"`
would give `"2"`.  The code removes every letter `p` instead
(`quality.replace("p", "")`), so `"2k"` passes through unchanged and the
format filter receives the non-numeric value `2k`. -/
theorem claim_C2_cex :
    format_height "2k" = "2k" ∧ format_height "2k" ≠ "2" ∧
      (mk_ydl_opts "2k" "t").format = "best[height<=2k]/best" := by decide

/-- C2 (amended): for `360p`, `720p`, `1080p` removing the letter `p`
yields the numeric height and the requested format is
`best[height<=N]/best` with the `/best` fallback; for `2k` the label is
passed through unchanged as `best[height<=2k]/best`, its interpretation
left to the extraction engine. -/
theorem claim_C2 :
    ydl_format "360p" = "best[height<=360]/best" ∧
    ydl_format "720p" = "best[height<=720]/best" ∧
    ydl_format "1080p" = "best[height<=1080]/best" ∧
    ydl_format "2k" = "best[height<=2k]/best" ∧
    (mk_ydl_opts "720p" "tok123").format = "best[height<=720]/best" := by decide

/-! ## Claim C9 -/

/-- C9 counterexample: the claim says `is_valid_url` never raises for
every platform string, but for a platform outside the dict the lookup
`patterns[platform]` raises `KeyError` (modelled as `none`). -/
theorem claim_C9_cex :
    is_valid_url "Instagram" "https://www.instagram.com/p/abc" = none := by decide

/-- C9 (amended): for each of the three recognised platform strings,
`is_valid_url` is total pure string matching — it returns a boolean for
every URL string, however malformed, and never raises; for any other
platform string the dict lookup raises `KeyError`. -/
theorem claim_C9 (p u : String) (hp : p ∈ PLATFORMS) :
    ∃ b, is_valid_url p u = some b := by
  have hp' : p = "YouTube" ∨ p = "TikTok" ∨ p = "Facebook" := by
    simpa [PLATFORMS] using hp
  rcases hp' with rfl | rfl | rfl <;> exact ⟨_, rfl⟩

/-- Witness for C9 at a concrete platform with the empty URL. -/
theorem claim_C9_witness :
    "Facebook" ∈ PLATFORMS ∧ ∃ b, is_valid_url "Facebook" "" = some b :=
  ⟨by decide, claim_C9 "Facebook" "" (by decide)⟩

/-! ## Claim C5 -/

/-- C5: `handle_url` applies three guards in order — (a) no session: reply
with the restart instruction; (b) truthy `video_sent`: reply that the
session is complete; (c) URL rejected by the validator: reply invalid URL —
and on every guard failure the store, the filesystem and everything else
are unchanged and the extraction engine is not invoked (full result-record
equalities). -/
theorem claim_C5 (uid : Nat) (text : String) (st : Store) (fs : List String)
    (env : DownloadEnv) :
    (sget st uid = none →
      handle_url uid text st fs env =
        { store := st, fs := fs, replies := [restart_msg], engine_called := false
        , opts_used := none, sent_video := none, raised := none }) ∧
    (∀ sess, sget st uid = some sess →
      dget sess "video_sent" = some (Val.bool true) →
      handle_url uid text st fs env =
        { store := st, fs := fs, replies := [already_msg], engine_called := false
        , opts_used := none, sent_video := none, raised := none }) ∧
    (∀ sess platform, sget st uid = some sess →
      dget sess "video_sent" = some (Val.bool false) →
      dget sess "platform" = some (Val.str platform) →
      is_valid_url platform (pyStrip text) = some false →
      handle_url uid text st fs env =
        { store := st, fs := fs, replies := [invalid_msg platform]
        , engine_called := false, opts_used := none, sent_video := none
        , raised := none }) := by
  refine ⟨?_, ?_, ?_⟩
  · intro h
    simp [handle_url, h]
  · intro sess hs hv
    simp [handle_url, hs, hv, truthy]
  · intro sess platform hs hv hp hval
    simp [handle_url, hs, hv, hp, hval, truthy]

/-- Witness for C5: guard (a) at a concrete input (empty store). -/
theorem claim_C5_witness :
    handle_url 3 "https://youtu.be/x" [] []
        { file_token := "t", outcome := EngineOutcome.raise "e" [] } =
      { store := [], fs := [], replies := [restart_msg], engine_called := false
      , opts_used := none, sent_video := none, raised := none } :=
  (claim_C5 3 "https://youtu.be/x" [] []
    { file_token := "t", outcome := EngineOutcome.raise "e" [] }).1 rfl

/-! ## Claim C4 -/

/-- C4 counterexample: a user who selected a platform but no quality
submits a valid URL; the claim says this is rejected and the engine never
invoked, but the code invokes the engine (with the default quality). -/
theorem claim_C4_cex :
    (handle_url 1 "https://youtu.be/abc"
        [(1, [("platform", Val.str "YouTube"), ("video_sent", Val.bool false)])] []
        { file_token := "tok0"
        , outcome := EngineOutcome.finish "mp4" (some "title") true 1000 none }).engine_called
      = true := by decide

/-- C4 (amended): submitting a URL after platform selection but before
quality selection is not rejected — if the URL passes validation the
download proceeds, with the quality defaulting to `720p`
(`.get("quality", "720p")`), so the engine is invoked with format
`best[height<=720]/best`. -/
theorem claim_C4 (uid : Nat) (text : String) (st : Store) (fs : List String)
    (env : DownloadEnv) (sess : Sess) (platform : String)
    (hs : sget st uid = some sess)
    (hv : dget sess "video_sent" = some (Val.bool false))
    (hq : dget sess "quality" = none)
    (hp : dget sess "platform" = some (Val.str platform))
    (hval : is_valid_url platform (pyStrip text) = some true) :
    (handle_url uid text st fs env).engine_called = true ∧
      (handle_url uid text st fs env).opts_used =
        some (mk_ydl_opts "720p" env.file_token) := by
  have hq' : sessQuality sess = some "720p" := by simp [sessQuality, hq]
  obtain ⟨ft, outcome⟩ := env
  cases outcome with
  | raise err leftover => simp [handle_url, hs, hv, hp, hval, hq', truthy]
  | finish ext title exists_after size send_err =>
    cases exists_after with
    | false => simp [handle_url, hs, hv, hp, hval, hq', truthy]
    | true =>
      by_cases hsz : size > GIB2
      · simp [handle_url, hs, hv, hp, hval, hq', truthy, hsz]
      · cases send_err <;> simp [handle_url, hs, hv, hp, hval, hq', truthy, hsz]

/-- Witness for C4 at a concrete no-quality session and valid URL. -/
theorem claim_C4_witness :
    (handle_url 1 "https://youtu.be/abc"
        [(1, [("platform", Val.str "YouTube"), ("video_sent", Val.bool false)])] []
        { file_token := "tok0"
        , outcome := EngineOutcome.finish "mp4" (some "title") true 1000 none }).engine_called
      = true ∧
    (handle_url 1 "https://youtu.be/abc"
        [(1, [("platform", Val.str "YouTube"), ("video_sent", Val.bool false)])] []
        { file_token := "tok0"
        , outcome := EngineOutcome.finish "mp4" (some "title") true 1000 none }).opts_used
      = some (mk_ydl_opts "720p" "tok0") :=
  claim_C4 1 "https://youtu.be/abc"
    [(1, [("platform", Val.str "YouTube"), ("video_sent", Val.bool false)])] []
    { file_token := "tok0"
    , outcome := EngineOutcome.finish "mp4" (some "title") true 1000 none }
    [("platform", Val.str "YouTube"), ("video_sent", Val.bool false)] "YouTube"
    (by decide) (by decide) (by decide) (by decide) (by decide)

/-! ## Claim C6 -/

/-- Behaviour of `button_handler` on a `platform:` callback. -/
theorem button_handler_platform {uid : Nat} {st : Store} {data platform : String}
    (h1 : beginsWith data.data "platform:".data = true)
    (h2 : (pySplitColon data)[1]? = some platform) :
    button_handler uid data st =
      { store := sset st uid
          [("platform", Val.str platform), ("video_sent", Val.bool false)]
      , replies := [platform_msg platform], raised := none } := by
  simp [button_handler, h1, h2]

/-- C6: (i) a successful download stores `video_sent = true` in the
sender's session; (ii) whenever a session's `video_sent` is `true`, any
further URL submission is answered with the duplicate-submission reply and
nothing changes, no engine invocation; (iii) selecting a platform again
creates a fresh session with `video_sent = false`. -/
theorem claim_C6 :
    (∀ (uid : Nat) (text : String) (st : Store) (fs : List String)
        (sess : Sess) (platform ft ext : String) (title : Option String) (size : Nat),
      sget st uid = some sess →
      dget sess "video_sent" = some (Val.bool false) →
      dget sess "platform" = some (Val.str platform) →
      (∃ q, sessQuality sess = some q) →
      is_valid_url platform (pyStrip text) = some true →
      ¬ size > GIB2 →
      ∃ sess', sget (handle_url uid text st fs
           { file_token := ft
           , outcome := EngineOutcome.finish ext title true size none }).store uid
          = some sess' ∧ dget sess' "video_sent" = some (Val.bool true)) ∧
    (∀ (uid : Nat) (text : String) (st : Store) (fs : List String)
        (env : DownloadEnv) (sess : Sess),
      sget st uid = some sess →
      dget sess "video_sent" = some (Val.bool true) →
      handle_url uid text st fs env =
        { store := st, fs := fs, replies := [already_msg], engine_called := false
        , opts_used := none, sent_video := none, raised := none }) ∧
    (∀ (uid : Nat) (st : Store) (data platform : String),
      beginsWith data.data "platform:".data = true →
      (pySplitColon data)[1]? = some platform →
      sget (button_handler uid data st).store uid =
        some [("platform", Val.str platform), ("video_sent", Val.bool false)]) := by
  refine ⟨?_, ?_, ?_⟩
  · intro uid text st fs sess platform ft ext title size hs hv hp hq hval hsz
    obtain ⟨q, hq'⟩ := hq
    refine ⟨dset sess "video_sent" (Val.bool true), ?_, dget_dset_self ..⟩
    simp [handle_url, hs, hv, hp, hval, hq', truthy, hsz, sget_sset_self]
  · intro uid text st fs env sess hs hv
    simp [handle_url, hs, hv, truthy]
  · intro uid st data platform h1 h2
    rw [button_handler_platform h1 h2]
    exact sget_sset_self ..

/-- Witness for C6: conjunct (ii) applied at a concrete completed
session. -/
theorem claim_C6_witness :
    handle_url 2 "https://youtu.be/x"
        [(2, [("platform", Val.str "YouTube"), ("video_sent", Val.bool true)])] []
        { file_token := "t", outcome := EngineOutcome.raise "e" [] } =
      { store := [(2, [("platform", Val.str "YouTube"), ("video_sent", Val.bool true)])]
      , fs := [], replies := [already_msg], engine_called := false
      , opts_used := none, sent_video := none, raised := none } :=
  claim_C6.2.1 2 "https://youtu.be/x"
    [(2, [("platform", Val.str "YouTube"), ("video_sent", Val.bool true)])] []
    { file_token := "t", outcome := EngineOutcome.raise "e" [] }
    [("platform", Val.str "YouTube"), ("video_sent", Val.bool true)]
    (by decide) (by decide)

/-! ## Claim C8 -/

/-- C8: when the engine produces a file larger than 2 GiB
(`2 * 1024 * 1024 * 1024` bytes), the handler replies with the oversize
message, the file is deleted from storage, no transmission through the
chat gateway is attempted, and the store is unchanged. -/
theorem claim_C8 (uid : Nat) (text : String) (st : Store) (fs : List String)
    (sess : Sess) (platform ft ext q : String) (title : Option String)
    (size : Nat) (send_err : Option String)
    (hs : sget st uid = some sess)
    (hv : dget sess "video_sent" = some (Val.bool false))
    (hp : dget sess "platform" = some (Val.str platform))
    (hq : sessQuality sess = some q)
    (hval : is_valid_url platform (pyStrip text) = some true)
    (hsz : size > GIB2) :
    (handle_url uid text st fs
        { file_token := ft
        , outcome := EngineOutcome.finish ext title true size send_err }) =
      { store := st
      , fs := fsRemove (fs ++ ["downloads/" ++ ft ++ "." ++ ext])
          ("downloads/" ++ ft ++ "." ++ ext)
      , replies := [wait_msg, toolarge_msg], engine_called := true
      , opts_used := some (mk_ydl_opts q ft), sent_video := none
      , raised := none } ∧
    ("downloads/" ++ ft ++ "." ++ ext) ∉
      (handle_url uid text st fs
        { file_token := ft
        , outcome := EngineOutcome.finish ext title true size send_err }).fs := by
  constructor
  · simp [handle_url, hs, hv, hp, hval, hq, truthy, hsz]
  · simp [handle_url, hs, hv, hp, hval, hq, truthy, hsz, fsRemove, List.mem_filter]

/-- Witness for C8: a 2 GiB + 1 byte file at a concrete session. -/
theorem claim_C8_witness :
    (handle_url 1 "https://www.tiktok.com/@user/video/1"
        [(1, [("platform", Val.str "TikTok"), ("video_sent", Val.bool false)
             , ("quality", Val.str "1080p")])] ["keep.txt"]
        { file_token := "tk"
        , outcome := EngineOutcome.finish "mp4" none true 2147483649 none }) =
      { store := [(1, [("platform", Val.str "TikTok"), ("video_sent", Val.bool false)
                      , ("quality", Val.str "1080p")])]
      , fs := fsRemove (["keep.txt"] ++ ["downloads/" ++ "tk" ++ "." ++ "mp4"])
          ("downloads/" ++ "tk" ++ "." ++ "mp4")
      , replies := [wait_msg, toolarge_msg], engine_called := true
      , opts_used := some (mk_ydl_opts "1080p" "tk")
      , sent_video := none, raised := none } ∧
    ("downloads/" ++ "tk" ++ "." ++ "mp4") ∉
      (handle_url 1 "https://www.tiktok.com/@user/video/1"
        [(1, [("platform", Val.str "TikTok"), ("video_sent", Val.bool false)
             , ("quality", Val.str "1080p")])] ["keep.txt"]
        { file_token := "tk"
        , outcome := EngineOutcome.finish "mp4" none true 2147483649 none }).fs :=
  claim_C8 1 "https://www.tiktok.com/@user/video/1"
    [(1, [("platform", Val.str "TikTok"), ("video_sent", Val.bool false)
         , ("quality", Val.str "1080p")])] ["keep.txt"]
    [("platform", Val.str "TikTok"), ("video_sent", Val.bool false)
    , ("quality", Val.str "1080p")] "TikTok" "tk" "mp4" "1080p" none 2147483649 none
    (by decide) (by decide) (by decide) (by decide) (by decide) (by decide)

/-! ## Claim C3 -/

/-- C3 evaluated at the failing input: the extraction engine raises after
writing a partial file into the working directory; the `except` block
dereferences the never-bound `file_path` and raises `NameError` before any
cleanup, so the partial artifact is still on storage when `handle_url`
returns — contradicting the claim that no artifact survives any outcome. -/
theorem claim_C3 :
    (handle_url 1 "https://youtu.be/abc"
        [(1, [("platform", Val.str "YouTube"), ("video_sent", Val.bool false)
             , ("quality", Val.str "720p")])] []
        { file_token := "ab12cd34ef"
        , outcome := EngineOutcome.raise "Timeout"
            ["downloads/ab12cd34ef.mp4.part"] }).fs
      = ["downloads/ab12cd34ef.mp4.part"] ∧
    (handle_url 1 "https://youtu.be/abc"
        [(1, [("platform", Val.str "YouTube"), ("video_sent", Val.bool false)
             , ("quality", Val.str "720p")])] []
        { file_token := "ab12cd34ef"
        , outcome := EngineOutcome.raise "Timeout"
            ["downloads/ab12cd34ef.mp4.part"] }).raised = some "NameError" := by
  decide

/-! ## Claim C7 -/

/-- C7 evaluated at the failing input: when `extract_info` raises, the user
does receive the reply with the raw error text and the session's
`video_sent` stays `false` (the store is unchanged), and a subsequent valid
submission is accepted (the engine is invoked again) — but the handler
itself propagates a `NameError` (the unbound `file_path` in the `except`
block), so the exception handling is not contained as the claim states,
and the explicit `video_sent = False` reset on line 163 is never
executed. -/
theorem claim_C7 :
    handle_url 1 "https://youtu.be/dQw"
        [(1, [("platform", Val.str "YouTube"), ("video_sent", Val.bool false)
             , ("quality", Val.str "360p")])] []
        { file_token := "tok1"
        , outcome := EngineOutcome.raise "HTTP Error 403: Forbidden" [] } =
      { store := [(1, [("platform", Val.str "YouTube"), ("video_sent", Val.bool false)
                      , ("quality", Val.str "360p")])]
      , fs := []
      , replies := [wait_msg, error_msg "HTTP Error 403: Forbidden"]
      , engine_called := true, opts_used := some (mk_ydl_opts "360p" "tok1")
      , sent_video := none, raised := some "NameError" } ∧
    (handle_url 1 "https://youtu.be/dQw"
        [(1, [("platform", Val.str "YouTube"), ("video_sent", Val.bool false)
             , ("quality", Val.str "360p")])] []
        { file_token := "tok2"
        , outcome := EngineOutcome.finish "mp4" (some "t") true 1000 none }).engine_called
      = true := by decide

/-! ## Claim C10 -/

/-- The store after `button_handler` is the old store, a fresh
platform-selection session, or the old session with `quality` set. -/
theorem button_handler_store (uid : Nat) (data : String) (st : Store) :
    (button_handler uid data st).store = st ∨
    (∃ platform, (button_handler uid data st).store =
      sset st uid [("platform", Val.str platform), ("video_sent", Val.bool false)]) ∨
    (∃ sess quality, sget st uid = some sess ∧
      (button_handler uid data st).store =
        sset st uid (dset sess "quality" (Val.str quality))) := by
  simp only [button_handler]
  repeat' split
  all_goals first
    | exact Or.inl rfl
    | exact Or.inr (Or.inl ⟨_, rfl⟩)
    | exact Or.inr (Or.inr ⟨_, _, by assumption, rfl⟩)

/-- The store after `handle_url` is the old store, or the sender's session
with `video_sent` set to a boolean. -/
theorem handle_url_store (uid : Nat) (text : String) (st : Store)
    (fs : List String) (env : DownloadEnv) :
    (handle_url uid text st fs env).store = st ∨
    ∃ sess b, sget st uid = some sess ∧
      (handle_url uid text st fs env).store =
        sset st uid (dset sess "video_sent" (Val.bool b)) := by
  simp only [handle_url]
  repeat' split
  all_goals first
    | exact Or.inl rfl
    | exact Or.inr ⟨_, _, by assumption, rfl⟩

/-- Updating one user's session preserves store well-formedness when the
new session is well-formed. -/
theorem WFstore_sset {st : Store} {uid : Nat} {d : Sess}
    (h : WFstore st) (hd : WFsession d) : WFstore (sset st uid d) := by
  intro uid' d' h'
  by_cases e : uid' = uid
  · subst e
    rw [sget_sset_self] at h'
    injection h' with h''
    subst h''
    exact hd
  · rw [sget_sset_ne st d e] at h'
    exact h uid' d' h'

/-- A freshly created platform-selection session is well-formed. -/
theorem WFsession_new (p : String) :
    WFsession [("platform", Val.str p), ("video_sent", Val.bool false)] :=
  ⟨⟨p, by simp [dget]⟩, ⟨false, by simp [dget]⟩⟩

/-- Storing a quality keeps a session well-formed. -/
theorem WFsession_dset_quality {sess : Sess} (q : String) (h : WFsession sess) :
    WFsession (dset sess "quality" (Val.str q)) := by
  obtain ⟨⟨p, hp⟩, ⟨b, hb⟩⟩ := h
  exact ⟨⟨p, by rw [dget_dset_ne _ _ (by decide)]; exact hp⟩,
         ⟨b, by rw [dget_dset_ne _ _ (by decide)]; exact hb⟩⟩

/-- Setting the sent flag keeps a session well-formed. -/
theorem WFsession_dset_sent {sess : Sess} (b : Bool) (h : WFsession sess) :
    WFsession (dset sess "video_sent" (Val.bool b)) := by
  obtain ⟨⟨p, hp⟩, _⟩ := h
  exact ⟨⟨p, by rw [dget_dset_ne _ _ (by decide)]; exact hp⟩,
         ⟨b, dget_dset_self ..⟩⟩

/-- C10: in every reachable system state, every session in the store is
well-formed — it holds a string `platform` (from the callback payload) and
a boolean `video_sent`; platform selection creates such a session, quality
selection adds only the `quality` key, and the URL handler at most rewrites
`video_sent` with a boolean. -/
theorem claim_C10 (s : Store × List String) (h : Reachable s) : WFstore s.1 := by
  induction h with
  | init =>
    intro uid d hd
    simp [sget] at hd
  | @step s' e hr ih =>
    obtain ⟨st, fs⟩ := s'
    cases e with
    | callback uid data =>
      rcases button_handler_store uid data st with h1 | ⟨p, h1⟩ | ⟨sess, q, hs, h1⟩
      · simpa [stepSys, h1] using ih
      · simp only [stepSys]
        rw [h1]
        exact WFstore_sset ih (WFsession_new p)
      · simp only [stepSys]
        rw [h1]
        exact WFstore_sset ih (WFsession_dset_quality q (ih _ _ hs))
    | message uid text env =>
      rcases handle_url_store uid text st fs env with h1 | ⟨sess, b, hs, h1⟩
      · simpa [stepSys, h1] using ih
      · simp only [stepSys]
        rw [h1]
        exact WFstore_sset ih (WFsession_dset_sent b (ih _ _ hs))

/-- Witness for C10 after one concrete platform-selection step. -/
theorem claim_C10_witness :
    WFstore ((stepSys ([], []) (Event.callback 1 "platform:YouTube")).1) :=
  claim_C10 _ (Reachable.step (Event.callback 1 "platform:YouTube") Reachable.init)

end TeleBot
